import Mathlib

/-!
Verification of the translation/transcription/synthesis core of the
`tg-translator` repository (`src/tg_translator`), shallowly embedded in Lean.

The embedding follows the Python source:
* `translator_service.py` — `_translate_sync` (direction resolver and its
  provider-call boundary), `_apply_custom_dictionary`, `translate_message`,
  `_generate_audio_silero_sync`, `_generate_audio_sync`, `_transcribe_sync`;
* `inflector.py` — `HeuristicInflector.get_variations`;
* `db.py` — `Database.create_export` / `Database.get_export`.

External providers (GoogleTranslator, Silero, gTTS, Whisper, sqlite, the
filesystem) are modelled as oracle parameters returning `Except`, so that a
raising provider call is an explicit error value and Python `try/except`
blocks become explicit catches.  Machine-level details that the claims do not
touch (thread pool, logging) are omitted.
-/

namespace TgTranslator

/-- Python exception values that the embedded code can raise.  `provider`
carries an opaque provider-error payload; `nameError` models referencing the
unbound local `res_prim`; `indexError` models `word[-1]` on an empty string. -/
inductive PyErr where
  | provider (payload : Nat)
  | nameError
  | indexError
  deriving Repr, DecidableEq

/-! ## String helpers mirroring the Python string methods used by the source -/

/-- Characters removed by Python `str.strip()` (ASCII whitespace; the inputs
in this development contain no exotic Unicode space). -/
def isPySpace (c : Char) : Bool :=
  c = ' ' || c = '\t' || c = '\n' || c = '\r' || c = '\x0b' || c = '\x0c'

/-- Python `str.strip()`. -/
def pyStrip (s : String) : String :=
  ⟨((s.data.dropWhile isPySpace).reverse.dropWhile isPySpace).reverse⟩

/-- Python `str.lower()` on one character, for the alphabets this program
handles (ASCII plus the Cyrillic letters appearing in the source and data). -/
def pyLowerChar (c : Char) : Char :=
  if 'A' ≤ c ∧ c ≤ 'Z' then Char.ofNat (c.toNat + 32)
  else if 'А' ≤ c ∧ c ≤ 'Я' then Char.ofNat (c.toNat + 32)
  else if c = 'Ё' then 'ё'
  else if c = 'Ї' then 'ї'
  else if c = 'І' then 'і'
  else if c = 'Є' then 'є'
  else c

/-- Python `str.lower()`. -/
def pyLower (s : String) : String := ⟨s.data.map pyLowerChar⟩

/-- Python `str.upper()` on one character (ASCII suffices for export codes). -/
def pyUpperChar (c : Char) : Char :=
  if 'a' ≤ c ∧ c ≤ 'z' then Char.ofNat (c.toNat - 32) else c

/-- Python `str.upper()`. -/
def pyUpper (s : String) : String := ⟨s.data.map pyUpperChar⟩

/-- One character of the regex class `[а-яА-ЯёЁ]` from
`re.search(r"[а-яА-ЯёЁ]", sample_text)` in `_translate_sync`. -/
def isRuCyrChar (c : Char) : Bool :=
  ('а' ≤ c && c ≤ 'я') || ('А' ≤ c && c ≤ 'Я') || c = 'ё' || c = 'Ё'

/-- `bool(re.search(r"[а-яА-ЯёЁ]", s))`. -/
def containsRuCyr (s : String) : Bool := s.data.any isRuCyrChar

/-! ## Direction resolver (`_translate_sync`, translator_service.py lines 79-128)

`translate_fn` models `GoogleTranslator(source="auto", target=t).translate(s)`
as a function of `(s, t)`; an exception is an `Except.error`.  The body of the
`try` block (lines 90-124) is the DirectionResolver; the surrounding
`try/except` (lines 89 and 126-128) is the orchestrator's provider-call
boundary and lives in `translate_sync` below.  The resolver also returns the
list of `(text, target)` provider calls it issued, in order. -/

def cyrillic_langs : List String :=
  ["ru", "uk", "be", "sr", "bg", "mk", "kk", "ky", "tg"]

/-- `sample_text = original_text if original_text else text` (line 91; an
empty string is falsy). -/
def sample_text (original_text : Option String) (text : String) : String :=
  match original_text with
  | some o => if o = "" then text else o
  | none => text

/-- Lines 90-124 of `_translate_sync`: the direction-resolution logic inside
the `try` block.  Returns the provider-call trace together with the result;
an `Except.error` is an uncaught Python exception leaving the resolver. -/
def resolve_and_translate (tf : String → String → Except Nat String)
    (text primary_lang secondary_lang : String) (original_text : Option String) :
    List (String × String) × Except PyErr String :=
  let sample_text := sample_text original_text text
  if cyrillic_langs.contains primary_lang && containsRuCyr sample_text then
    -- is_source_primary = True: probe skipped, res_prim never assigned
    let target_lang := secondary_lang
    if target_lang = primary_lang ∧ text = sample_text then
      -- `return res_prim` with res_prim unbound raises UnboundLocalError
      ([], .error .nameError)
    else
      match tf text target_lang with
      | .ok r => ([(text, target_lang)], .ok r)
      | .error e => ([(text, target_lang)], .error (.provider e))
  else
    -- probe: res_prim = GoogleTranslator(source="auto", target=primary).translate(sample)
    match tf sample_text primary_lang with
    | .error e => ([(sample_text, primary_lang)], .error (.provider e))
    | .ok res_prim =>
      let is_source_primary :=
        res_prim ≠ "" ∧ pyStrip (pyLower res_prim) = pyStrip (pyLower sample_text)
      let target_lang := if is_source_primary then secondary_lang else primary_lang
      if target_lang = primary_lang ∧ text = sample_text then
        ([(sample_text, primary_lang)], .ok res_prim)
      else
        match tf text target_lang with
        | .ok r => ([(sample_text, primary_lang), (text, target_lang)], .ok r)
        | .error e =>
          ([(sample_text, primary_lang), (text, target_lang)], .error (.provider e))

/-- `_translate_sync`: the resolver wrapped in the `try/except` boundary that
turns any exception into `None` (lines 89, 126-128). -/
def translate_sync (tf : String → String → Except Nat String)
    (text primary_lang secondary_lang : String) (original_text : Option String) :
    List (String × String) × Option String :=
  match resolve_and_translate tf text primary_lang secondary_lang original_text with
  | (calls, .ok r) => (calls, some r)
  | (calls, .error _) => (calls, none)

/-! ## Custom dictionary substitution (`_apply_custom_dictionary`, lines 130-153)

Each stored term `(source, target)` is applied as
`re.sub(r"\b" + re.escape(source) + r"\b", target, processed, flags=IGNORECASE)`.
`re.escape` makes `source` a literal, so the pattern is: the literal `source`
matched case-insensitively with a word boundary on each side.  The replacement
`target` is modelled as literal text (the stored targets contain no template
escapes).  `\w` is modelled for ASCII and the Cyrillic block, the alphabets
this program processes. -/

/-- Python regex word character `\w` restricted to ASCII and Cyrillic letters
(the Cyrillic block U+0400-U+04FF minus the combining marks U+0483-U+0489). -/
def isWordChar (c : Char) : Bool :=
  c.isAlphanum || c = '_' ||
    (0x400 ≤ c.toNat && c.toNat ≤ 0x482) || (0x48A ≤ c.toNat && c.toNat ≤ 0x4FF)

/-- `\b` between two (possibly absent, at the string edges) characters. -/
def wordBoundaryB (a b : Option Char) : Bool :=
  (match a with | some c => isWordChar c | none => false) !=
    (match b with | some c => isWordChar c | none => false)

/-- Case-insensitive literal match of `src` against a prefix of `txt`
(`re.IGNORECASE` on an escaped literal). -/
def matchesCI : List Char → List Char → Bool
  | [], _ => true
  | _ :: _, [] => false
  | a :: as, b :: bs => pyLowerChar a = pyLowerChar b && matchesCI as bs

/-- Scanner for `pattern.sub(target, text)` with pattern
`\b<literal src>\b` (IGNORECASE): leftmost, non-overlapping matches; scanning
resumes after each match; for a zero-width match the replacement is emitted
and one character is copied (Python ≥3.7 semantics).  `prev` is the character
just before the current position.  `fuel` only drives structural recursion;
`wwSub` supplies `fuel = txt.length`, which the scan can never exhaust. -/
def wwSubAux (src tgt : List Char) : Nat → Option Char → List Char → List Char
  | _, prev, [] => if src.isEmpty && wordBoundaryB prev none then tgt else []
  | 0, _, l => l
  | fuel + 1, prev, c :: cs =>
    if src.isEmpty then
      if wordBoundaryB prev (some c) then
        tgt ++ c :: wwSubAux src tgt fuel (some c) cs
      else
        c :: wwSubAux src tgt fuel (some c) cs
    else
      if matchesCI src (c :: cs) && wordBoundaryB prev (some c) &&
          wordBoundaryB (((c :: cs).take src.length).getLast?)
            (((c :: cs).drop src.length).head?) then
        tgt ++ wwSubAux src tgt fuel (((c :: cs).take src.length).getLast?)
          ((c :: cs).drop src.length)
      else
        c :: wwSubAux src tgt fuel (some c) cs

/-- `re.sub` of the whole-word case-insensitive literal pattern for `src`,
replacing with `tgt`, over `text`. -/
def wwSub (src tgt text : String) : String :=
  ⟨wwSubAux src.data tgt.data text.data.length none text.data⟩

/-- The key ordering of `terms.sort(key=lambda x: len(x[0]), reverse=True)`:
`a` may stay before `b` iff `b`'s source is no longer than `a`'s. -/
def termLenGe (a b : String × String) : Prop := b.1.length ≤ a.1.length

instance : DecidableRel termLenGe :=
  fun a b => inferInstanceAs (Decidable (b.1.length ≤ a.1.length))

instance : IsTotal (String × String) termLenGe :=
  ⟨fun a b => Nat.le_total b.1.length a.1.length⟩

instance : IsTrans (String × String) termLenGe :=
  ⟨fun _ _ _ h1 h2 => Nat.le_trans h2 h1⟩

/-- `terms.sort(key=lambda x: len(x[0]), reverse=True)`: a stable sort by
source length descending (Python's list.sort is stable; so is insertion
sort). -/
def sortTermsDesc (terms : List (String × String)) : List (String × String) :=
  List.insertionSort termLenGe terms

/-- `_apply_custom_dictionary` from the point where `get_terms` has produced
`terms` (lines 136-153): on an empty list the text is returned unchanged,
otherwise the sorted patterns are applied one after another to the running
result. -/
def apply_custom_dictionary (terms : List (String × String)) (text : String) :
    String :=
  if terms.isEmpty then text
  else (sortTermsDesc terms).foldl (fun acc t => wwSub t.1 t.2 acc) text

/-! ## `translate_message` (lines 155-186)

The persistence collaborator is modelled by total lookup functions, matching
`db.py` where `get_languages` and `get_terms` catch their own errors and
return the default pair / empty list. -/

structure DbModel where
  /-- `db.get_languages(chat_id)` (already defaulting to `("ru","en")`). -/
  langs : Int → String × String
  /-- `db.get_terms(chat_id, lang_pair)` (already defaulting to `[]`). -/
  terms : Int → String → List (String × String)

/-- `f"{langs[0]}-{langs[1]}"` for `langs = sorted([primary, secondary])`. -/
def langPairKey (primary secondary : String) : String :=
  if secondary < primary then secondary ++ "-" ++ primary
  else primary ++ "-" ++ secondary

/-- `_apply_custom_dictionary` including its `if not self.db or chat_id is
None: return text` guard (lines 130-134). -/
def apply_custom_dictionary_db (db : Option DbModel) (chat_id : Option Int)
    (lang_pair text : String) : String :=
  match db, chat_id with
  | some d, some cid => apply_custom_dictionary (d.terms cid lang_pair) text
  | _, _ => text

/-- `translate_message` (the async entry point; the executor hop is identity).
Note the two different guards in the source: languages are loaded only `if
self.db and chat_id` (`0` is falsy), while the dictionary pass only requires
`chat_id is not None`. -/
def translate_message (db : Option DbModel) (tf : String → String → Except Nat String)
    (text : String) (chat_id : Option Int) :
    Option String :=
  if text = "" ∨ pyStrip text = "" then none
  else
    let pq : String × String :=
      match db, chat_id with
      | some d, some cid => if cid ≠ 0 then d.langs cid else ("ru", "en")
      | _, _ => ("ru", "en")
    let lang_pair := langPairKey pq.1 pq.2
    let text_to_translate := apply_custom_dictionary_db db chat_id lang_pair text
    (translate_sync tf text_to_translate pq.1 pq.2 (some text)).2

/-! ## `HeuristicInflector.get_variations` (inflector.py lines 14-115)

Python sets become lists (only membership matters).  The source first tests
`if not word`, then strips, then evaluates `word[-1].lower()` — which raises
`IndexError` when the stripped word is empty. -/

def ruConsonants : List Char := "бвгджзклмнпрстфхцчшщ".data

def get_variations (word : String) : Except PyErr (List String) :=
  if word = "" then .ok []
  else
    let w := pyStrip word
    match w.data.getLast? with
    | none => .error .indexError
    | some last =>
      let base : String := ⟨w.data.dropLast⟩
      if ruConsonants.contains (pyLowerChar last) then
        .ok [w, w ++ "а", w ++ "у", w ++ "ом", w ++ "е"]
      else if last = 'й' ∨ last = 'Й' then
        .ok [w, base ++ "я", base ++ "ю", base ++ "ем", base ++ "е", base ++ "и"]
      else if last = 'а' ∨ last = 'А' then
        .ok [w, base ++ "ы", base ++ "е", base ++ "у", base ++ "ой"]
      else if last = 'я' ∨ last = 'Я' then
        if 2 < w.data.length ∧ w.data.dropLast.getLast?.map pyLowerChar = some 'и' then
          .ok [w, base ++ "и", base ++ "ю", base ++ "ей"]
        else
          .ok [w, base ++ "и", base ++ "е", base ++ "ю", base ++ "ей", base ++ "ёй"]
      else if last = 'ь' ∨ last = 'Ь' then
        .ok [w, base ++ "я", base ++ "ю", base ++ "ем", base ++ "е",
             base ++ "и", w ++ "ю"]
      else
        .ok [w]

/-! ## Export store (`db.py`, `create_export` lines 208-225 and `get_export`
lines 227-246)

The sqlite `exports` table is a list of rows; `created_at` is a timestamp in
seconds.  A primary-key violation on INSERT raises, is caught, and yields
`None` with the table unchanged (the `with conn` block rolls back). -/

structure ExportRow where
  code : String
  data : String
  created_at : Int
  deriving Repr, DecidableEq

/-- `create_export`: `code = f"DICT-{uuid.uuid4().hex[:6].upper()}"` followed
by the INSERT.  `uuidHex` models `uuid.uuid4().hex` (32 lowercase hex
digits). -/
def create_export (st : List ExportRow) (now : Int) (uuidHex : String)
    (data : String) : Option String × List ExportRow :=
  let code := "DICT-" ++ pyUpper ⟨uuidHex.data.take 6⟩
  if st.any (fun r => r.code = code) then (none, st)
  else (some code, st ++ [⟨code, data, now⟩])

/-- `get_export`: first `DELETE FROM exports WHERE created_at <
datetime('now','-1 day')`, then `SELECT data FROM exports WHERE code = ?`
with `code.upper()`. -/
def get_export (st : List ExportRow) (now : Int) (code : String) :
    Option String × List ExportRow :=
  let st1 := st.filter (fun r => ¬ r.created_at < now - 86400)
  ((st1.find? (fun r => r.code = pyUpper code)).map (·.data), st1)

/-! ## Synthesis (`_generate_audio_silero_sync` lines 188-272,
`_generate_audio_sync` lines 274-296, `generate_audio` lines 298-308)

Oracles model torch.hub.load, `model.apply_tts`, `sf.write`,
`AudioSegment...export` and gTTS; the filesystem is the list of existing
files; the event trace records which provider steps were actually invoked. -/

inductive SynthEvent where
  | loadModel (model_id : String)
  | applyTts (speaker : String)
  | sfWrite (path : String)
  | exportMp3 (src dst : String)
  | gtts (lang : String)
  deriving Repr, DecidableEq

structure SynthOracle where
  loadModel : String → Except Nat Unit
  applyTts : String → String → Except Nat Unit
  sfWrite : String → Except Nat Unit
  exportMp3 : String → String → Except Nat Unit
  gtts : String → String → Except Nat Unit

structure SynthOutcome where
  result : Option String
  files : List String
  events : List SynthEvent
  deriving Repr, DecidableEq

/-- The fixed Silero configuration of lines 198-224: for a language/gender it
yields `(model_id, silero_lang_code, speaker)`, or `none` for the
`else: return None` branch (language not supported, provider skipped). -/
def sileroConfig (lang gender : String) : Option (String × String × String) :=
  let lang_code := pyLower lang
  if lang_code = "ru" then
    some ("v4_ru", "ru", if gender = "female" then "kseniya" else "aidar")
  else if lang_code = "uk" ∨ lang_code = "ua" then
    some ("v4_ua", "ua", "mykyta")
  else if lang_code = "en" then
    some ("v3_en", "en", if gender = "female" then "en_1" else "en_2")
  else none

/-- The body of the `try` block of `_generate_audio_silero_sync` (lines
196-268).  `cached` models `model_id in self.silero_models`; `uuid` models
`uuid.uuid4()` in the wav file name; `wav_filename.replace(".wav", ".mp3")`
is computed structurally (a uuid contains no `".wav"`).  On error the payload
carries the files and events at the raise point. -/
def silero_core (o : SynthOracle) (cached : Bool) (uuid : String)
    (text lang gender : String) (fs0 : List String) :
    Except (Nat × List String × List SynthEvent) SynthOutcome :=
  match sileroConfig lang gender with
  | none => .ok ⟨none, fs0, []⟩
  | some (model_id, _lang_code, speaker) =>
    let ev0 : List SynthEvent := if cached then [] else [.loadModel model_id]
    match (if cached then .ok () else o.loadModel model_id : Except Nat Unit) with
    | .error e => .error (e, fs0, ev0)
    | .ok _ =>
      let ev1 := ev0 ++ [.applyTts speaker]
      match o.applyTts text speaker with
      | .error e => .error (e, fs0, ev1)
      | .ok _ =>
        let wav := "tmp/tts_silero_" ++ uuid ++ ".wav"
        let mp3 := "tmp/tts_silero_" ++ uuid ++ ".mp3"
        let ev2 := ev1 ++ [.sfWrite wav]
        match o.sfWrite wav with
        | .error e => .error (e, fs0, ev2)
        | .ok _ =>
          let fs1 := fs0 ++ [wav]
          let ev3 := ev2 ++ [.exportMp3 wav mp3]
          match o.exportMp3 wav mp3 with
          | .error e => .error (e, fs1, ev3)
          | .ok _ =>
            let fs2 := fs1 ++ [mp3]
            let fs3 := if wav ∈ fs2 then fs2.erase wav else fs2
            .ok ⟨some mp3, fs3, ev3⟩

/-- `_generate_audio_silero_sync`: the core wrapped in its `try/except`
(lines 195, 270-272), which logs and returns `None`. -/
def generate_audio_silero_sync (o : SynthOracle) (cached : Bool) (uuid : String)
    (text lang gender : String) (fs0 : List String) : SynthOutcome :=
  match silero_core o cached uuid text lang gender fs0 with
  | .ok out => out
  | .error (_, fs, evs) => ⟨none, fs, evs⟩

/-- `_generate_audio_sync` (lines 274-296): Silero first; if it produced no
path, the gTTS fallback inside its own `try/except`. -/
def generate_audio_sync (o : SynthOracle) (cached : Bool) (uuid gttsUuid : String)
    (text lang gender : String) (fs0 : List String) : SynthOutcome :=
  let s := generate_audio_silero_sync o cached uuid text lang gender fs0
  match s.result with
  | some p => ⟨some p, s.files, s.events⟩
  | none =>
    let fname := "tmp/tts_gtts_" ++ gttsUuid ++ ".mp3"
    match o.gtts text lang with
    | .ok _ => ⟨some fname, s.files ++ [fname], s.events ++ [.gtts lang]⟩
    | .error _ => ⟨none, s.files, s.events ++ [.gtts lang]⟩

/-- `generate_audio` (lines 298-308): the async wrapper only hops to the
executor, so it is the synchronous pipeline. -/
def generate_audio (o : SynthOracle) (cached : Bool) (uuid gttsUuid : String)
    (text lang gender : String) (fs0 : List String) : SynthOutcome :=
  generate_audio_sync o cached uuid gttsUuid text lang gender fs0

/-- Modelled from the spec: the speaker-resolution precedence of the
synthesis orchestrator (§4.7): explicit speaker override, else the per-chat
stored preset for `(lang, gender)`, else the built-in default speaker for
`(lang, gender)` from the Silero table, else (unsupported language) none.
The `generate_audio(..., speaker_override=...)` entry called by
`handlers/admin.py` and the `get_voice_preset` store exercised by
`tests/test_db_mode.py` are not part of this source snapshot; only the
built-in table (embedded above as `sileroConfig`) is. -/
def resolveSpeaker (speaker_override : Option String)
    (preset : Option String) (lang gender : String) : Option String :=
  match speaker_override with
  | some s => some s
  | none =>
    match preset with
    | some s => some s
    | none => (sileroConfig lang gender).map (fun t => t.2.2)

/-! ## Transcription (`_transcribe_sync` lines 323-340, `transcribe_audio`
lines 342-349) -/

structure SttOracle where
  /-- `WhisperModel(...)` construction in `_get_whisper_model`. -/
  loadModel : Except Nat Unit
  /-- `model.transcribe(file_path, beam_size=5)`: the segment texts. -/
  transcribe : String → Except Nat (List String)

/-- The body of the `try` block of `_transcribe_sync` (lines 329-337):
model load (skipped when the warm cache holds it), transcription,
`" ".join(...).strip()`, and the blank-result check. -/
def transcribe_core (o : SttOracle) (cached : Bool) (file_path : String) :
    Except Nat (Option String) :=
  match (if cached then .ok () else o.loadModel : Except Nat Unit) with
  | .error e => .error e
  | .ok _ =>
    match o.transcribe file_path with
    | .error e => .error e
    | .ok segs =>
      let text := pyStrip (String.intercalate " " segs)
      .ok (if text = "" then none else some text)

/-- `_transcribe_sync`: the core wrapped in its `try/except` (lines 328,
338-340). -/
def transcribe_sync (o : SttOracle) (cached : Bool) (file_path : String) :
    Option String :=
  match transcribe_core o cached file_path with
  | .ok r => r
  | .error _ => none

/-- `transcribe_audio`: the async wrapper only hops to the executor. -/
def transcribe_audio (o : SttOracle) (cached : Bool) (file_path : String) :
    Option String :=
  transcribe_sync o cached file_path

/-! ## Claim theorems -/

/-- Vocabulary of claim C1: a code point of the Unicode Cyrillic block
(U+0400 to U+04FF).  The source's regex `[а-яА-ЯёЁ]` (`isRuCyrChar`) accepts
only the Russian-alphabet subset of these. -/
def isCyrillicCodePoint (c : Char) : Bool :=
  0x400 ≤ c.toNat && c.toNat ≤ 0x4FF

/-- Claim C1 as stated is false.  (a) With `primary = "uk"` (in the Cyrillic
set) and `original_text = "ї"` — a Cyrillic code point outside the regex
class `[а-яА-ЯёЁ]` — the resolver does not take the fast path: it probes, and
its single translate call targets the primary, not the secondary.  (b) With
`primary = secondary = "ru"` and Cyrillic text the fast path is taken but no
translate call at all is issued: `return res_prim` hits the unbound local
`res_prim` and the resolver raises instead of returning the call's result. -/
theorem C1_counterexample :
    ("ї".data.any isCyrillicCodePoint = true ∧
      cyrillic_langs.contains "uk" = true ∧
      resolve_and_translate (fun _ _ => Except.ok "yi") "ї" "uk" "en" (some "ї")
        = ([("ї", "uk")], .ok "yi") ∧
      ([("ї", "uk")] : List (String × String)) ≠ [("ї", "en")]) ∧
    ("привет".data.any isCyrillicCodePoint = true ∧
      cyrillic_langs.contains "ru" = true ∧
      resolve_and_translate (fun _ _ => Except.ok "Privet") "привет" "ru" "ru"
          (some "привет")
        = ([], .error .nameError)) := by
  exact ⟨⟨by decide, by decide, by rfl, by decide⟩, by decide, by decide, by rfl⟩

/-- Claim C1 (amended): for every call where `primary` is one of
{ru, uk, be, sr, bg, mk, kk, ky, tg}, the pre-substitution `original_text`
contains at least one character of the class `[а-яА-ЯёЁ]` (Russian-alphabet
Cyrillic; other Cyrillic code points do not trigger the fast path), and the
configured secondary differs from primary, the resolver chooses source =
primary and target = secondary, skips the probe, invokes the translate
function exactly once (with target secondary), and returns that call's
result. -/
theorem C1_cyrillic_fast_path (tf : String → String → Except Nat String)
    (text primary secondary o : String)
    (hp : cyrillic_langs.contains primary = true)
    (ho : o ≠ "")
    (hc : containsRuCyr o = true)
    (hs : secondary ≠ primary) :
    resolve_and_translate tf text primary secondary (some o)
      = ([(text, secondary)],
          match tf text secondary with
          | .ok r => .ok r
          | .error e => .error (.provider e)) := by
  have hp' : primary ∈ cyrillic_langs := by simpa using hp
  cases htf : tf text secondary with
  | ok r => simp [resolve_and_translate, sample_text, ho, hp', hc, hs, htf]
  | error e => simp [resolve_and_translate, sample_text, ho, hp', hc, hs, htf]

/-- Concrete instance of the amended C1: Cyrillic text with pair (ru, en) is
translated by a single call toward the secondary. -/
theorem C1_cyrillic_fast_path_witness :
    resolve_and_translate (fun s t => Except.ok (s ++ ":" ++ t))
        "привет мир" "ru" "en" (some "привет мир")
      = ([("привет мир", "en")], .ok "привет мир:en") := by
  exact C1_cyrillic_fast_path (fun s t => Except.ok (s ++ ":" ++ t))
    "привет мир" "ru" "en" "привет мир" (by decide) (by decide) (by decide)
    (by decide)

/-- Claim C2: when the Cyrillic fast path does not apply, the probe result
differs from the original under case- and whitespace-insensitive comparison
(so the computed target is the primary), and the post-dictionary text equals
the original, the probe result itself is the final translation and the
translate function was invoked exactly once. -/
theorem C2_probe_shortcut (tf : String → String → Except Nat String)
    (text primary secondary o r : String)
    (hfast : (cyrillic_langs.contains primary && containsRuCyr o) = false)
    (ho : o ≠ "") (heq : text = o)
    (hprobe : tf o primary = .ok r)
    (hdiff : pyStrip (pyLower r) ≠ pyStrip (pyLower o)) :
    resolve_and_translate tf text primary secondary (some o)
      = ([(o, primary)], .ok r) ∧
    translate_sync tf text primary secondary (some o)
      = ([(o, primary)], some r) := by
  subst heq
  have h1 : resolve_and_translate tf text primary secondary (some text)
      = ([(text, primary)], .ok r) := by
    simp only [resolve_and_translate, sample_text, if_neg ho]
    rw [hfast]
    simp [hprobe, hdiff]
  exact ⟨h1, by simp [translate_sync, h1]⟩

/-- The spec's own shortcut scenario: probe of "Hello world" toward ru
changes the text, so its result is returned after exactly one provider
call. -/
theorem C2_probe_shortcut_witness :
    translate_sync (fun _ t => if t = "ru" then Except.ok "Привет мир" else Except.ok "X")
        "Hello world" "ru" "en" (some "Hello world")
      = ([("Hello world", "ru")], some "Привет мир") := by
  exact (C2_probe_shortcut
    (fun _ t => if t = "ru" then Except.ok "Привет мир" else Except.ok "X")
    "Hello world" "ru" "en" "Hello world" "Привет мир"
    (by decide) (by decide) rfl rfl (by decide)).2

/-- Claim C4: when the probe call raises, the resolver does not catch the
exception — the resolver's own result is that error — and it is the caller
boundary (`_translate_sync`'s `try/except`) that turns it into `None`. -/
theorem C4_probe_failure_propagates (tf : String → String → Except Nat String)
    (text primary secondary : String) (ot : Option String) (e : Nat)
    (hfast : (cyrillic_langs.contains primary
        && containsRuCyr (sample_text ot text)) = false)
    (hprobe : tf (sample_text ot text) primary = .error e) :
    resolve_and_translate tf text primary secondary ot
      = ([(sample_text ot text, primary)], .error (.provider e)) ∧
    translate_sync tf text primary secondary ot
      = ([(sample_text ot text, primary)], none) := by
  have h1 : resolve_and_translate tf text primary secondary ot
      = ([(sample_text ot text, primary)], .error (.provider e)) := by
    simp only [resolve_and_translate]
    rw [hfast]
    simp [hprobe]
  exact ⟨h1, by simp [translate_sync, h1]⟩

/-- Concrete instance of C4: a failing probe leaves the resolver as an error
and surfaces as null only at the boundary. -/
theorem C4_probe_failure_propagates_witness :
    resolve_and_translate (fun _ _ => Except.error 42) "hello" "fr" "en"
        (some "hello")
      = ([("hello", "fr")], .error (.provider 42)) ∧
    translate_sync (fun _ _ => Except.error 42) "hello" "fr" "en" (some "hello")
      = ([("hello", "fr")], none) := by
  exact C4_probe_failure_propagates (fun _ _ => Except.error 42) "hello" "fr"
    "en" (some "hello") 42 (by decide) rfl

/-- With a provider that fails on every call, the direction-resolution core
always ends in an error (never a silent wrong value). -/
lemma resolve_allFail (tf : String → String → Except Nat String)
    (h : ∀ a b, ∃ err, tf a b = .error err) (text p s : String)
    (ot : Option String) :
    ∃ calls e, resolve_and_translate tf text p s ot = (calls, .error e) := by
  simp only [resolve_and_translate]
  split
  · split
    · exact ⟨[], .nameError, rfl⟩
    · obtain ⟨err, he⟩ := h text s
      simp [he]
  · obtain ⟨err, he⟩ := h (sample_text ot text) p
    simp [he]

/-- With a provider that fails on every call, `_translate_sync` returns
`None`. -/
lemma translate_sync_allFail (tf : String → String → Except Nat String)
    (h : ∀ a b, ∃ err, tf a b = .error err) (text p s : String)
    (ot : Option String) : (translate_sync tf text p s ot).2 = none := by
  obtain ⟨calls, e, hre⟩ := resolve_allFail tf h text p s ot
  simp [translate_sync, hre]

/-- Claim C3: the public entry points never propagate an exception.  The
`_translate_sync` boundary absorbs any resolver error into `None`;
`translate_message` returns null even when every provider call raises;
`transcribe_audio` returns null whenever its core raises; `generate_audio`
returns null when the Silero core raises and gTTS raises too. -/
theorem C3_entry_points_never_raise :
    (∀ (tf : String → String → Except Nat String)
        (text primary secondary : String) (ot : Option String) (e : PyErr),
        (resolve_and_translate tf text primary secondary ot).2 = .error e →
        (translate_sync tf text primary secondary ot).2 = none) ∧
    (∀ (db : Option DbModel) (tf : String → String → Except Nat String)
        (text : String) (cid : Option Int),
        (∀ a b, ∃ err, tf a b = .error err) →
        translate_message db tf text cid = none) ∧
    (∀ (o : SttOracle) (cached : Bool) (fp : String) (e : Nat),
        transcribe_core o cached fp = .error e →
        transcribe_audio o cached fp = none) ∧
    (∀ (o : SynthOracle) (cached : Bool) (u gu text lang gender : String)
        (fs : List String) (e e2 : Nat) (fse : List String)
        (eve : List SynthEvent),
        silero_core o cached u text lang gender fs = .error (e, fse, eve) →
        o.gtts text lang = .error e2 →
        (generate_audio o cached u gu text lang gender fs).result = none) := by
  refine ⟨?_, ?_, ?_, ?_⟩
  · intro tf text p s ot e h
    rcases hr : resolve_and_translate tf text p s ot with ⟨calls, r⟩
    rw [hr] at h
    simp at h
    subst h
    simp [translate_sync, hr]
  · intro db tf text cid hfail
    unfold translate_message
    split
    · rfl
    · exact translate_sync_allFail tf hfail _ _ _ (some text)
  · intro o cached fp e h
    simp [transcribe_audio, transcribe_sync, h]
  · intro o cached u gu text lang gender fs e e2 fse eve hsil hgtts
    simp [generate_audio, generate_audio_sync, generate_audio_silero_sync,
      hsil, hgtts]

/-- Every entry point degrades to null on total provider failure, at
concrete inputs. -/
theorem C3_entry_points_never_raise_witness :
    translate_message (some ⟨fun _ => ("ru", "en"), fun _ _ => []⟩)
        (fun _ _ => Except.error 3) "Hello" (some 5) = none ∧
    transcribe_audio ⟨Except.error 1, fun _ => Except.error 2⟩ false "v.ogg"
        = none ∧
    (generate_audio
        ⟨fun _ => Except.error 1, fun _ _ => Except.error 1,
          fun _ => Except.error 1, fun _ _ => Except.error 1,
          fun _ _ => Except.error 9⟩
        false "u" "g" "hi" "ru" "male" []).result = none := by
  refine ⟨?_, ?_, ?_⟩
  · exact C3_entry_points_never_raise.2.1 _ _ _ _ (fun a b => ⟨3, rfl⟩)
  · exact C3_entry_points_never_raise.2.2.1 _ false "v.ogg" 1 rfl
  · exact C3_entry_points_never_raise.2.2.2 _ false "u" "g" "hi" "ru" "male"
      [] 1 9 [] [SynthEvent.loadModel "v4_ru"] rfl rfl

/-- Claim C5 is contradicted by the code.  On the non-empty, whitespace-only
input " " the generator passes the `if not word` guard, strips the word to
`""`, and `word[-1]` raises `IndexError` — it is not total.  Moreover, for an
input with surrounding whitespace the returned set contains the stripped
word, not the word exactly as passed in. -/
theorem C5_whitespace_crash :
    get_variations " " = .error .indexError ∧
    get_variations "" = .ok [] ∧
    get_variations " Ян " = .ok ["Ян", "Яна", "Яну", "Яном", "Яне"] ∧
    " Ян " ∉ ["Ян", "Яна", "Яну", "Яном", "Яне"] := by
  exact ⟨rfl, rfl, rfl, by decide⟩

/-- Claim C6: substitution applies terms in descending order of source-term
length.  (1) The list of patterns actually applied is sorted by source length,
longest first.  (2) For a dictionary holding two terms whose sources are in a
substring relation (hence the shorter is strictly shorter), in either storage
order the longer term's pattern is applied first and the shorter only to the
result.  (3) The spec's own example: with both "сан" and "сан франциско"
stored, text containing the longer phrase gets the longer term's
replacement. -/
theorem C6_longest_match_first :
    (∀ terms : List (String × String),
        List.Sorted termLenGe (sortTermsDesc terms)) ∧
    (∀ (a ga b gb text : String), a.data <:+: b.data → a.length < b.length →
        apply_custom_dictionary [(a, ga), (b, gb)] text
            = wwSub a ga (wwSub b gb text) ∧
        apply_custom_dictionary [(b, gb), (a, ga)] text
            = wwSub a ga (wwSub b gb text)) ∧
    apply_custom_dictionary [("сан", "сун"), ("сан франциско", "Бэй-Эриа")]
        "Еду в Сан Франциско" = "Еду в Бэй-Эриа" := by
  refine ⟨fun terms => List.sorted_insertionSort termLenGe terms, ?_, by rfl⟩
  intro a ga b gb text _hsub hlen
  have hnot : ¬ termLenGe (a, ga) (b, gb) := by
    simp only [termLenGe]
    omega
  have hyes : termLenGe (b, gb) (a, ga) := le_of_lt hlen
  constructor
  · simp [apply_custom_dictionary, sortTermsDesc, List.insertionSort,
      List.orderedInsert, hnot]
  · simp [apply_custom_dictionary, sortTermsDesc, List.insertionSort,
      List.orderedInsert, hyes]

/-- Concrete instance of C6's ordering part: whichever way the two terms are
stored, the longer source is substituted first. -/
theorem C6_longest_match_first_witness :
    apply_custom_dictionary [("ab", "X"), ("ab c", "Y")] "ab c d"
        = wwSub "ab" "X" (wwSub "ab c" "Y" "ab c d") ∧
    apply_custom_dictionary [("ab c", "Y"), ("ab", "X")] "ab c d"
        = wwSub "ab" "X" (wwSub "ab c" "Y" "ab c d") :=
  C6_longest_match_first.2.1 "ab" "X" "ab c" "Y" "ab c d" (by decide) (by decide)

/-- Vocabulary of claim C7: a full match of the regex `DICT-[A-Z0-9]{6}`. -/
def isDictCodeB (s : String) : Bool :=
  match s.data with
  | 'D' :: 'I' :: 'C' :: 'T' :: '-' :: rest =>
      rest.length = 6 && rest.all (fun c => c.isUpper || c.isDigit)
  | _ => false

/-- The characters `uuid.uuid4().hex` can produce (lowercase hex digits). -/
def hexLowerChars : List Char := "0123456789abcdef".data

lemma pyUpperChar_hex (c : Char) (h : c ∈ hexLowerChars) :
    ((pyUpperChar c).isUpper || (pyUpperChar c).isDigit) = true := by
  fin_cases h <;> decide

lemma find?_append_code (l : List ExportRow) (row : ExportRow) (c : String)
    (hl : ∀ r ∈ l, r.code ≠ c) (hrow : row.code = c) :
    (l ++ [row]).find? (fun r => r.code = c) = some row := by
  induction l with
  | nil => simp [List.find?, hrow]
  | cons x xs ih =>
    have hx : ¬ x.code = c := hl x (by simp)
    simpa [List.find?, hx] using ih (fun r hr => hl r (by simp [hr]))

/-- Claim C7: for any store state in which the freshly generated code does
not yet occur, `create_export` returns a code matching `DICT-[A-Z0-9]{6}`;
an immediate `get_export` with any letter case of that code returns the same
data; and once the row is older than 24 hours (86400 s), `get_export`
returns null and the expired row is purged from the table by the read. -/
theorem C7_export_roundtrip (st : List ExportRow) (now : Int) (h data : String)
    (hlen : 6 ≤ h.data.length)
    (hhex : ∀ c ∈ h.data.take 6, c ∈ hexLowerChars)
    (hfresh : ∀ r ∈ st, r.code ≠ "DICT-" ++ pyUpper ⟨h.data.take 6⟩) :
    ∃ code st',
      create_export st now h data = (some code, st') ∧
      isDictCodeB code = true ∧
      (∀ q, pyUpper q = code → (get_export st' now q).1 = some data) ∧
      (∀ now2, now + 86400 < now2 → ∀ q, pyUpper q = code →
        (get_export st' now2 q).1 = none ∧
        ∀ r ∈ (get_export st' now2 q).2, r.code ≠ code) := by
  set code := "DICT-" ++ pyUpper ⟨h.data.take 6⟩ with hcode
  have hany : st.any (fun r => r.code = code) = false := by
    simp only [List.any_eq_false, decide_eq_true_eq]
    exact hfresh
  refine ⟨code, st ++ [⟨code, data, now⟩], ?_, ?_, ?_, ?_⟩
  · simp [create_export, hany, hcode]
  · have hdata : code.data
        = 'D' :: 'I' :: 'C' :: 'T' :: '-' :: (h.data.take 6).map pyUpperChar := rfl
    unfold isDictCodeB
    rw [hdata]
    have hl6 : (h.data.take 6).length = 6 := by
      rw [List.length_take]
      omega
    simp only [List.length_map, hl6, List.all_map, Function.comp]
    simp only [decide_eq_true_eq, Bool.and_eq_true, List.all_eq_true]
    exact ⟨by trivial, fun c hc => pyUpperChar_hex c (hhex c hc)⟩
  · intro q hq
    have hkeep : ¬ ((now : Int) < now - 86400) := by omega
    simp only [get_export, List.filter_append, decide_not]
    rw [hq]
    have hrow : ([(⟨code, data, now⟩ : ExportRow)].filter
        (fun r => !decide (r.created_at < now - 86400))) = [⟨code, data, now⟩] := by
      simp [hkeep]
    rw [hrow, find?_append_code _ _ code
      (fun r hr => hfresh r (List.mem_of_mem_filter hr)) rfl]
    rfl
  · intro now2 hexp q hq
    have hdrop : ((now : Int) < now2 - 86400) := by omega
    have hrowdrop : ([(⟨code, data, now⟩ : ExportRow)].filter
        (fun r => !decide (r.created_at < now2 - 86400))) = [] := by
      simp [hdrop]
    have hnone : (st.filter (fun r => !decide (r.created_at < now2 - 86400))).find?
        (fun r => r.code = code) = none := by
      rw [List.find?_eq_none]
      intro r hr
      simpa using hfresh r (List.mem_of_mem_filter hr)
    constructor
    · simp only [get_export, List.filter_append, decide_not]
      rw [hq, hrowdrop, List.append_nil, hnone]
      rfl
    · intro r hr
      simp only [get_export, List.filter_append, decide_not, hrowdrop,
        List.append_nil] at hr
      exact hfresh r (List.mem_of_mem_filter hr)

/-- Concrete export round trip, aging, and purge. -/
theorem C7_export_roundtrip_witness :
    ∃ code st',
      create_export [] 0 "a1b2c3deadbeef" "payload" = (some code, st') ∧
      isDictCodeB code = true ∧
      (get_export st' 0 "dict-a1b2c3").1 = some "payload" ∧
      (get_export st' 100000 "dict-a1b2c3").1 = none := by
  obtain ⟨code, st', h1, h2, h3, h4⟩ :=
    C7_export_roundtrip [] 0 "a1b2c3deadbeef" "payload" (by decide)
      (by decide) (by simp)
  have h1' : create_export [] 0 "a1b2c3deadbeef" "payload"
      = (some "DICT-A1B2C3", [⟨"DICT-A1B2C3", "payload", 0⟩]) := by rfl
  rw [h1'] at h1
  have hc : code = "DICT-A1B2C3" :=
    (Option.some.inj (congrArg Prod.fst h1)).symm
  refine ⟨code, st', by rw [h1', h1], h2, h3 "dict-a1b2c3" (by rw [hc]; rfl), ?_⟩
  exact (h4 100000 (by omega) "dict-a1b2c3" (by rw [hc]; rfl)).1

/-- Claim C8 as stated is false: when the WAV-to-MP3 transcoding step raises,
the `except` handler returns `None` without deleting the intermediate WAV
file, which is still on disk when the call returns. -/
theorem C8_counterexample :
    generate_audio_silero_sync
        ⟨fun _ => Except.ok (), fun _ _ => Except.ok (), fun _ => Except.ok (),
          fun _ _ => Except.error 0, fun _ _ => Except.ok ()⟩
        false "u1" "привет" "ru" "male" []
      = ⟨none, ["tmp/tts_silero_u1.wav"],
          [.loadModel "v4_ru", .applyTts "aidar",
           .sfWrite "tmp/tts_silero_u1.wav",
           .exportMp3 "tmp/tts_silero_u1.wav" "tmp/tts_silero_u1.mp3"]⟩ ∧
    "tmp/tts_silero_u1.wav"
      ∈ (generate_audio_silero_sync
          ⟨fun _ => Except.ok (), fun _ _ => Except.ok (), fun _ => Except.ok (),
            fun _ _ => Except.error 0, fun _ _ => Except.ok ()⟩
          false "u1" "привет" "ru" "male" []).files := by
  exact ⟨rfl, by decide⟩

/-- Claim C8 (amended): once provider₁ has written the intermediate WAV
file, that file is deleted before the call returns on the path where the
WAV-to-MP3 transcoding succeeds; on the path where transcoding fails the
call returns null and the WAV file is not deleted (it remains on disk). -/
theorem C8_wav_deleted_only_on_success
    (o : SynthOracle) (cached : Bool) (u text lang gender mid lc spk : String)
    (fs0 : List String)
    (hcfg : sileroConfig lang gender = some (mid, lc, spk))
    (hload : (if cached then Except.ok () else o.loadModel mid) = Except.ok ())
    (htts : o.applyTts text spk = Except.ok ())
    (hwrite : o.sfWrite ("tmp/tts_silero_" ++ u ++ ".wav") = Except.ok ())
    (hfresh : ("tmp/tts_silero_" ++ u ++ ".wav") ∉ fs0) :
    (o.exportMp3 ("tmp/tts_silero_" ++ u ++ ".wav")
        ("tmp/tts_silero_" ++ u ++ ".mp3") = Except.ok () →
      (generate_audio_silero_sync o cached u text lang gender fs0).result
          = some ("tmp/tts_silero_" ++ u ++ ".mp3") ∧
      ("tmp/tts_silero_" ++ u ++ ".wav")
          ∉ (generate_audio_silero_sync o cached u text lang gender fs0).files) ∧
    (∀ e, o.exportMp3 ("tmp/tts_silero_" ++ u ++ ".wav")
        ("tmp/tts_silero_" ++ u ++ ".mp3") = Except.error e →
      (generate_audio_silero_sync o cached u text lang gender fs0).result
          = none ∧
      ("tmp/tts_silero_" ++ u ++ ".wav")
          ∈ (generate_audio_silero_sync o cached u text lang gender fs0).files) := by
  have hneq : ("tmp/tts_silero_" ++ u ++ ".wav")
      ≠ ("tmp/tts_silero_" ++ u ++ ".mp3") := by
    intro hcontra
    have h3 : ("tmp/tts_silero_" ++ u).data ++ ".wav".data
        = ("tmp/tts_silero_" ++ u).data ++ ".mp3".data :=
      congrArg String.data hcontra
    have h4 := List.append_cancel_left h3
    exact absurd h4 (by decide)
  have herase : (fs0 ++ ["tmp/tts_silero_" ++ u ++ ".wav",
        "tmp/tts_silero_" ++ u ++ ".mp3"]).erase
        ("tmp/tts_silero_" ++ u ++ ".wav")
      = fs0 ++ ["tmp/tts_silero_" ++ u ++ ".mp3"] := by
    rw [List.erase_append_right _ hfresh]
    simp
  constructor
  · intro hexp
    simp only [generate_audio_silero_sync, silero_core, hcfg, hload, htts,
      hwrite, hexp]
    simp [herase, hfresh, hneq]
  · intro e hexp
    simp only [generate_audio_silero_sync, silero_core, hcfg, hload, htts,
      hwrite, hexp]
    simp

/-- On the success path, at concrete inputs, the WAV is gone and the MP3 is
returned. -/
theorem C8_wav_deleted_only_on_success_witness :
    (generate_audio_silero_sync
        ⟨fun _ => Except.ok (), fun _ _ => Except.ok (), fun _ => Except.ok (),
          fun _ _ => Except.ok (), fun _ _ => Except.ok ()⟩
        true "u9" "hi" "ru" "male" []).result = some "tmp/tts_silero_u9.mp3" ∧
    "tmp/tts_silero_u9.wav"
      ∉ (generate_audio_silero_sync
          ⟨fun _ => Except.ok (), fun _ _ => Except.ok (), fun _ => Except.ok (),
            fun _ _ => Except.ok (), fun _ _ => Except.ok ()⟩
          true "u9" "hi" "ru" "male" []).files := by
  exact (C8_wav_deleted_only_on_success _ true "u9" "hi" "ru" "male"
    "v4_ru" "ru" "aidar" [] rfl rfl rfl rfl (by simp)).1 rfl

/-- Claim C9: speaker resolution precedence — explicit override first, else
the stored per-chat preset for `(lang, gender)`, else the built-in default
from the Silero table; and for a language absent from the table provider₁
is skipped entirely (no model load, no synthesis attempt: its event trace is
empty and the state is untouched) and control falls to the gTTS provider. -/
theorem C9_speaker_resolution :
    (∀ (s : String) (preset : Option String) (lang gender : String),
        resolveSpeaker (some s) preset lang gender = some s) ∧
    (∀ (s lang gender : String),
        resolveSpeaker none (some s) lang gender = some s) ∧
    (∀ lang gender,
        resolveSpeaker none none lang gender
          = (sileroConfig lang gender).map (fun t => t.2.2)) ∧
    (∀ (o : SynthOracle) (cached : Bool) (u gu text lang gender : String)
        (fs0 : List String),
        sileroConfig lang gender = none →
        generate_audio_silero_sync o cached u text lang gender fs0
            = ⟨none, fs0, []⟩ ∧
        (generate_audio o cached u gu text lang gender fs0).events
            = [SynthEvent.gtts lang] ∧
        (o.gtts text lang = Except.ok () →
          (generate_audio o cached u gu text lang gender fs0).result
              = some ("tmp/tts_gtts_" ++ gu ++ ".mp3"))) := by
  refine ⟨fun s p l g => rfl, fun s l g => rfl, fun l g => rfl, ?_⟩
  intro o cached u gu text lang gender fs0 hcfg
  have hs : generate_audio_silero_sync o cached u text lang gender fs0
      = ⟨none, fs0, []⟩ := by
    simp [generate_audio_silero_sync, silero_core, hcfg]
  refine ⟨hs, ?_, ?_⟩
  · cases hg : o.gtts text lang <;>
      simp [generate_audio, generate_audio_sync, hs, hg]
  · intro hg
    simp [generate_audio, generate_audio_sync, hs, hg]

/-- Concrete instances of the precedence chain and of the skip-to-gTTS
branch for an unsupported language. -/
theorem C9_speaker_resolution_witness :
    resolveSpeaker (some "en_45") (some "en_92") "en" "male" = some "en_45" ∧
    resolveSpeaker none (some "en_92") "en" "male" = some "en_92" ∧
    resolveSpeaker none none "ru" "female" = some "kseniya" ∧
    (generate_audio
        ⟨fun _ => Except.ok (), fun _ _ => Except.ok (), fun _ => Except.ok (),
          fun _ _ => Except.ok (), fun _ _ => Except.ok ()⟩
        false "u" "g" "hallo" "de" "male" []).events
      = [SynthEvent.gtts "de"] := by
  refine ⟨C9_speaker_resolution.1 "en_45" (some "en_92") "en" "male",
    C9_speaker_resolution.2.1 "en_92" "en" "male",
    (C9_speaker_resolution.2.2.1 "ru" "female").trans rfl,
    (C9_speaker_resolution.2.2.2 _ false "u" "g" "hallo" "de" "male" []
      rfl).2.1⟩

/-- Claim C10: the dictionary pass is sequential, not simultaneous: the
sorted patterns are folded one after another over the running result, and a
target inserted by an earlier (longer) term can itself be rewritten by a
later (shorter) term — here "ab cd" → "xx ab yy" first, then the "ab"
inside the inserted replacement is rewritten to "zz". -/
theorem C10_sequential_substitution :
    (∀ (terms : List (String × String)) (text : String), terms ≠ [] →
        apply_custom_dictionary terms text
          = (sortTermsDesc terms).foldl (fun acc t => wwSub t.1 t.2 acc) text) ∧
    (wwSub "ab cd" "xx ab yy" "ab cd" = "xx ab yy" ∧
     wwSub "ab" "zz" "xx ab yy" = "xx zz yy" ∧
     apply_custom_dictionary [("ab cd", "xx ab yy"), ("ab", "zz")] "ab cd"
        = "xx zz yy") := by
  refine ⟨?_, by rfl, by rfl, by rfl⟩
  intro terms text h
  simp [apply_custom_dictionary, List.isEmpty_eq_true, h]

/-- Concrete instance of the sequential-fold shape. -/
theorem C10_sequential_substitution_witness :
    apply_custom_dictionary [("a", "b")] "a c"
      = (sortTermsDesc [("a", "b")]).foldl
          (fun acc t => wwSub t.1 t.2 acc) "a c" :=
  C10_sequential_substitution.1 [("a", "b")] "a c" (by decide)

end TgTranslator
